import Mathlib

/-!
# Verification of the pyft activity-processing core

Shallow embedding, in Lean 4, of the numeric core of the `pyft` repository:

* `src/pyft/df_utils/helper_funcs.py` — lap duration / distance aggregation;
* `src/pyft/serialize/parse.py` — `BaseParser.infer_points_data` (distance,
  bucket and pace columns), `GPXParser.activity_type`, and the
  `FITParser` backfill buffer;
* `src/pyft/parse/parsers.py` — the pace outlier-correction pass of its
  `BaseParser.infer_points_data`;
* `src/pyft/activity.py` — `Activity.get_split_markers`.

Conventions: pandas float columns become `ℚ` (or `Option ℚ` where `NaN`/`NaT`
can arise and matters), timestamps become `ℚ` seconds, integer columns become
`ℤ`/`ℕ`, and code paths that raise become `Except String`.  The module
`pyft/geo_utils.py` is not part of the provided sources; the two functions
imported from it (`haversine_distance`, `intersect_points`) are modelled from
the specification and marked as such in their doc comments.
-/

instance {ε α : Type _} [DecidableEq ε] [DecidableEq α] : DecidableEq (Except ε α) :=
  fun x y =>
  match x, y with
  | .error a, .error b =>
    if h : a = b then isTrue (congrArg Except.error h)
    else isFalse (fun hh => h (Except.error.inj hh))
  | .ok a, .ok b =>
    if h : a = b then isTrue (congrArg Except.ok h)
    else isFalse (fun hh => h (Except.ok.inj hh))
  | .error _, .ok _ => isFalse (fun hh => Except.noConfusion hh)
  | .ok _, .error _ => isFalse (fun hh => Except.noConfusion hh)

/-- `MILE` constant from `src/pyft/serialize/parse.py` (and `parse/parsers.py`,
`activity.py`): metres in a mile. -/
def MILE : ℚ := 1609344 / 1000

/-! ## `src/pyft/df_utils/helper_funcs.py` -/

/-- Embeds `get_lap_durations(laps, points)` from
`src/pyft/df_utils/helper_funcs.py`:
`start_times - start_times.shift(-1, fill_value=points.iloc[-1]['time'])`.
`laps` is the `start_time` column of the laps frame (in seconds), `points`
the `time` column of the points frame.  `points.iloc[-1]` raises `IndexError`
on an empty frame, hence the `Except`. -/
def get_lap_durations (laps : List ℚ) (points : List ℚ) : Except String (List ℚ) :=
  match points.getLast? with
  | none => .error "IndexError: single positional indexer is out-of-bounds"
  | some lastTime =>
    .ok ((List.range laps.length).map fun i =>
      laps.getD i 0 - (if i + 1 < laps.length then laps.getD (i + 1) 0 else lastTime))

/-- Insert an integer into a sorted list of integers (ascending). -/
def insert_sorted (x : ℤ) : List ℤ → List ℤ
  | [] => [x]
  | y :: ys => if x ≤ y then x :: y :: ys else y :: insert_sorted x ys

/-- Insertion sort over integers (ascending). -/
def sort_keys : List ℤ → List ℤ
  | [] => []
  | x :: xs => insert_sorted x (sort_keys xs)

/-- Sorted list of the distinct lap numbers occurring in the points frame:
pandas `groupby` group keys (sorted ascending, no duplicates). -/
def lap_group_keys (rows : List (ℤ × ℚ)) : List ℤ :=
  sort_keys ((rows.map Prod.fst).dedup)

/-- `groupby('lap').first()` for the `cumul_distance_2d` column: the first row
(in frame order) carrying the given lap number. -/
def lap_group_first (rows : List (ℤ × ℚ)) (g : ℤ) : ℚ :=
  ((rows.find? (fun r => r.1 = g)).map Prod.snd).getD 0

/-- Embeds `get_lap_distances(points)` from
`src/pyft/df_utils/helper_funcs.py`: group the `cumul_distance_2d` column by
`lap`, take the first value of each group, and subtract the shifted-up
(`shift(-1)`) series, filling the last slot with
`points.iloc[-1]['cumul_distance_2d']`.  Each row of `rows` is
`(lap, cumul_distance_2d)`. -/
def get_lap_distances (rows : List (ℤ × ℚ)) : Except String (List ℚ) :=
  match rows.getLast? with
  | none => .error "IndexError: single positional indexer is out-of-bounds"
  | some lastRow =>
    let keys := lap_group_keys rows
    .ok ((List.range keys.length).map fun j =>
      lap_group_first rows (keys.getD j 0) -
        (if j + 1 < keys.length then lap_group_first rows (keys.getD (j + 1) 0)
         else lastRow.2))


/-! ## `src/pyft/serialize/parse.py` — `BaseParser.infer_points_data`

The DataFrame handed to `infer_points_data` carries the columns of
`INITIAL_COL_NAMES`; the computed columns only read `latitude`, `longitude`
and `time`, which is what `TrackPoint` records (`time` in seconds).  The
missing-column `ValueError` check concerns DataFrames lacking whole columns
and has no counterpart in a typed record. -/

structure TrackPoint where
  latitude : ℚ
  longitude : ℚ
  time : ℚ
deriving DecidableEq, Inhabited

/-- The `(latitude, longitude)` pair of row `i`. -/
def latlon (pts : List TrackPoint) (i : ℕ) : ℚ × ℚ :=
  ((pts.getD i default).latitude, (pts.getD i default).longitude)

/-- Modelled from the spec: `haversine_distance` lives in `pyft/geo_utils.py`,
which is not among the provided sources.  The spec (§4.1) fixes only two
facts used here: the distance is a great-circle distance (taken as an
arbitrary function `d`, nonnegativity being a hypothesis of the theorems
that need it), and "when either endpoint is the sentinel 'no previous
point' (series start), the result is defined as `0`, not `NaN`".
`BaseParser.distance_2d` applies it to the row and the `shift()`-ed row,
whose first entry is the sentinel. -/
def distance_2d (d : ℚ × ℚ → ℚ × ℚ → ℚ) (cur : ℚ × ℚ) (prev : Option (ℚ × ℚ)) : ℚ :=
  match prev with
  | none => 0
  | some p => d cur p

/-- Column `step_length_2d`: `distance_2d(lat, lon, lat.shift(), lon.shift())`.
Row `0` sees the sentinel previous row. -/
def step_length_2d (d : ℚ × ℚ → ℚ × ℚ → ℚ) (pts : List TrackPoint) : ℕ → ℚ
  | 0 => distance_2d d (latlon pts 0) none
  | i + 1 => distance_2d d (latlon pts (i + 1)) (some (latlon pts i))

/-- Column `cumul_distance_2d = step_length_2d.fillna(0).cumsum()`.  Under the
spec-modelled sentinel no entry is `NaN`, so `fillna(0)` is the identity and
the column is the running sum of the steps. -/
def cumul_distance_2d (d : ℚ × ℚ → ℚ × ℚ → ℚ) (pts : List TrackPoint) : ℕ → ℚ
  | 0 => step_length_2d d pts 0
  | i + 1 => cumul_distance_2d d pts i + step_length_2d d pts (i + 1)

/-- The `time` column at row `i` (seconds). -/
def time_at (pts : List TrackPoint) (i : ℕ) : ℚ :=
  (pts.getD i default).time

/-- Column `km_pace = (1000 / interval_distance) * (time - prev_time)` where
`prev_time`/`prev_cumul_distance` are the columns shifted by
`config.speed_measure_interval = N`; rows `i < N` see `NaT` shifts and get a
missing value. -/
def km_pace (d : ℚ × ℚ → ℚ × ℚ → ℚ) (N : ℕ) (pts : List TrackPoint) (i : ℕ) : Option ℚ :=
  if i < N then none
  else some ((1000 / (cumul_distance_2d d pts i - cumul_distance_2d d pts (i - N)))
             * (time_at pts i - time_at pts (i - N)))

/-- Column `mile_pace = (MILE / step_length_2d) * (time - prev_time)`: the
source divides by the single-step `step_length_2d` column, not by the
`N`-interval distance, while the time difference spans `N` rows. -/
def mile_pace (d : ℚ × ℚ → ℚ × ℚ → ℚ) (N : ℕ) (pts : List TrackPoint) (i : ℕ) : Option ℚ :=
  if i < N then none
  else some ((MILE / step_length_2d d pts i) * (time_at pts i - time_at pts (i - N)))

/-- Row of the enriched DataFrame produced by
`BaseParser.infer_points_data` in `src/pyft/serialize/parse.py`. -/
structure EnrichedPoint where
  latitude : ℚ
  longitude : ℚ
  time : ℚ
  step_length_2d : ℚ
  cumul_distance_2d : ℚ
  km : ℤ
  mile : ℤ
  run_time : ℚ
  km_pace : Option ℚ
  mile_pace : Option ℚ
  kmph : Option ℚ
  mph : Option ℚ
deriving DecidableEq, Inhabited

/-- Embeds `BaseParser.infer_points_data` of `src/pyft/serialize/parse.py`:
per-row distance, cumulative distance, `km`/`mile` buckets (float floor
division then `astype(int)`), elapsed time, interval pace and speed columns.
`d` stands for `haversine_distance` and `N` for
`config.speed_measure_interval`. -/
def infer_points_data (d : ℚ × ℚ → ℚ × ℚ → ℚ) (N : ℕ) (pts : List TrackPoint) :
    List EnrichedPoint :=
  (List.range pts.length).map fun i =>
    { latitude := (pts.getD i default).latitude
      longitude := (pts.getD i default).longitude
      time := time_at pts i
      step_length_2d := step_length_2d d pts i
      cumul_distance_2d := cumul_distance_2d d pts i
      km := ⌊cumul_distance_2d d pts i / 1000⌋
      mile := ⌊cumul_distance_2d d pts i / MILE⌋
      run_time := time_at pts i - time_at pts 0
      km_pace := km_pace d N pts i
      mile_pace := mile_pace d N pts i
      kmph := (km_pace d N pts i).map (fun p => 3600 / p)
      mph := ((km_pace d N pts i).map (fun p => 3600 / p)).map (fun s => s / (MILE / 1000)) }


/-! ## `src/pyft/serialize/parse.py` — `FITParser` backfill -/

/-- `FITParser.LATLON_TO_DECIMAL = (2 ** 32) / 360`. -/
def LATLON_TO_DECIMAL : ℚ := (2 ^ 32) / 360

/-- One entry of `FITParser._points_data` / `_backfill`: the `data` dict built
by `_add_point`.  `point_no` is the value of `get_point_no()` (the `_point`
counter starts at `-1` and is pre-incremented, hence `ℤ`); `track_no` and
`segment_no` are the constants `0`.  The remaining fields are nullable. -/
structure FitData where
  point_no : ℤ
  track_no : ℤ
  segment_no : ℤ
  latitude : Option ℚ
  longitude : Option ℚ
  elevation : Option ℚ
  time : Option ℚ
  hr : Option ℤ
  cadence : Option ℤ
deriving DecidableEq, Inhabited

/-- The `data` dict assembled at the top of `FITParser._add_point`: nulls for
latitude/longitude unless the raw semicircle values are present, in which
case they are scaled by `LATLON_TO_DECIMAL`. -/
def mk_fit_data (n : ℤ) (lat lon elev ts : Option ℚ) (hr cad : Option ℤ) : FitData :=
  { point_no := n
    track_no := 0
    segment_no := 0
    latitude := lat.map (fun v => v / LATLON_TO_DECIMAL)
    longitude := lon.map (fun v => v / LATLON_TO_DECIMAL)
    elevation := elev
    time := ts
    hr := hr
    cadence := cad }

/-- The inner loop of `_add_point`'s flush:
`for k in data: if (to_add[k] is None) and (data[k] is not None): to_add[k] = data[k]`,
one field at a time.  `point_no`, `track_no` and `segment_no` are never
`None`, so the loop leaves them unchanged. -/
def fill_null (to_add data : FitData) : FitData :=
  { point_no := to_add.point_no
    track_no := to_add.track_no
    segment_no := to_add.segment_no
    latitude := match to_add.latitude with | none => data.latitude | some v => some v
    longitude := match to_add.longitude with | none => data.longitude | some v => some v
    elevation := match to_add.elevation with | none => data.elevation | some v => some v
    time := match to_add.time with | none => data.time | some v => some v
    hr := match to_add.hr with | none => data.hr | some v => some v
    cadence := match to_add.cadence with | none => data.cadence | some v => some v }

/-- The outer loop of `_add_point`'s flush: iterate over `self._backfill` in
order, patch each buffered dict and append it to `self._points_data`. -/
def flush_backfill (data : FitData) : List FitData → List FitData → List FitData
  | [], acc => acc
  | t :: rest, acc => flush_backfill data rest (acc ++ [fill_null t data])

/-- Mutable state of a `FITParser`: the `_point` counter (starts at `-1`),
`_points_data` and `_backfill`. -/
structure FitState where
  point : ℤ
  points_data : List FitData
  backfill : List FitData
deriving DecidableEq, Inhabited

/-- `FITParser.__init__` state: `_point = -1`, empty lists. -/
def fit_init : FitState := { point := -1, points_data := [], backfill := [] }

/-- Embeds `FITParser._add_point`: build `data` (with `get_point_no()`
incrementing the counter); if latitude or longitude is missing, queue `data`
in `_backfill`; otherwise patch-and-flush the whole buffer in order and
append `data` last. -/
def add_point (s : FitState) (lat lon elev ts : Option ℚ) (hr cad : Option ℤ) : FitState :=
  let n := s.point + 1
  let data := mk_fit_data n lat lon elev ts hr cad
  if lat.isNone || lon.isNone then
    { s with point := n, backfill := s.backfill ++ [data] }
  else
    { point := n
      points_data := flush_backfill data s.backfill s.points_data ++ [data]
      backfill := [] }

/-- The per-sample fields that `FITParser._parse` reads off a
`FitDataMessage` frame. -/
structure FitFrame where
  position_lat : Option ℚ
  position_long : Option ℚ
  altitude : Option ℚ
  timestamp : Option ℚ
  heart_rate : Option ℤ
  cadence : Option ℤ
deriving DecidableEq, Inhabited

/-- The record-frame handling in `FITParser._parse`'s loop: `_add_point` is
invoked only when the frame has both `timestamp` and `altitude`.  (The
`elif` branch of the source repeats the same condition and is dead code.) -/
def process_frame (s : FitState) (f : FitFrame) : FitState :=
  if f.timestamp.isSome && f.altitude.isSome then
    add_point s f.position_lat f.position_long f.altitude f.timestamp f.heart_rate f.cadence
  else s

/-- The point rows accumulated by `FITParser._parse` over a whole stream:
whatever remains in `_backfill` at the end is never read again. -/
def parse_fit (frames : List FitFrame) : List FitData :=
  (frames.foldl process_frame fit_init).points_data


/-! ## `src/pyft/parse/parsers.py` — outlier correction of `km_pace`

In this variant of `BaseParser.infer_points_data` the `km_pace` column is
`(1000 / step_length_2d) * (time - time.shift())` and is then smoothed in
place:

    mean_pace = df['km_pace'].mean()
    zscore = (df['km_pace'] - df['km_pace'].mean()) / df['km_pace'].std()
    rolling_mean = (df['km_pace'].shift(fill_value=mean_pace)
                    + df['km_pace'].shift(-1, fill_value=mean_pace)) / 2
    df['km_pace'] = df['km_pace'].where(np.abs(zscore) < 1, rolling_mean)

A pace entry is `none` where the float column holds `NaN` (first row, or a
zero-length/zero-time artefact).  pandas `mean`/`std` skip `NaN`; `std` uses
`ddof=1`; element-wise sums propagate `NaN`; `np.abs(zscore) < 1` is `False`
for `NaN`, so such rows take the `rolling_mean` branch of `where`. -/

/-- pandas `Series.mean()` (skips missing entries; `NaN` when none remain). -/
def nan_mean (xs : List (Option ℚ)) : Option ℚ :=
  let vs := xs.reduceOption
  if vs.length = 0 then none else some (vs.sum / vs.length)

/-- pandas `Series.std() ** 2` (variance, `ddof=1`, skips missing entries;
`NaN` when fewer than two remain).  The z-score test `|z| < 1` is phrased
against the variance to stay inside `ℚ`: for `std > 0`,
`|x - mean| < std ↔ (x - mean)^2 < var`, and for `std = 0` both sides of the
`where` condition are `False`. -/
def nan_var (xs : List (Option ℚ)) : Option ℚ :=
  let vs := xs.reduceOption
  if vs.length < 2 then none
  else
    match nan_mean xs with
    | none => none
    | some m => some ((vs.map (fun v => (v - m) ^ 2)).sum / ((vs.length : ℚ) - 1))

/-- The `where` condition `np.abs(zscore) < 1` at row `i`: `False` whenever
the value, the mean or the standard deviation is missing. -/
def keep_pace (xs : List (Option ℚ)) (i : ℕ) : Bool :=
  match xs.getD i none, nan_mean xs, nan_var xs with
  | some x, some m, some v => decide ((x - m) ^ 2 < v)
  | _, _, _ => false

/-- `rolling_mean` at row `i`: the element-wise average of the `shift(1)` and
`shift(-1)` columns, both padded with `mean_pace` at the series boundary;
a missing neighbour propagates (`NaN + x = NaN`). -/
def rolling_mean (xs : List (Option ℚ)) (i : ℕ) : Option ℚ :=
  let left := if i = 0 then nan_mean xs else xs.getD (i - 1) none
  let right := if i + 1 < xs.length then xs.getD (i + 1) none else nan_mean xs
  match left, right with
  | some a, some b => some ((a + b) / 2)
  | _, _ => none

/-- Embeds the outlier-correction pass of
`src/pyft/parse/parsers.py` (`BaseParser.infer_points_data`, the
`df['km_pace'] = df['km_pace'].where(np.abs(zscore) < 1, rolling_mean)`
assignment): each row keeps its pace iff `|z| < 1`, otherwise it takes the
single-pass rolling mean of the original column. -/
def outlier_corrected_pace (xs : List (Option ℚ)) : List (Option ℚ) :=
  (List.range xs.length).map fun i =>
    if keep_pace xs i then xs.getD i none else rolling_mean xs i


/-! ## `src/pyft/activity.py` — `Activity.get_split_markers`

`self.points` rows enter with the columns that `get_split_markers` and
`intersect_points` read: position/elevation/time/sensor columns, the
cumulative distance, and the precomputed `km`/`mile` bucket columns. -/

structure SplitPoint where
  latitude : ℚ
  longitude : ℚ
  elevation : ℚ
  time : ℚ
  hr : ℚ
  cadence : ℚ
  cumul_distance_2d : ℚ
  km : ℤ
  mile : ℤ
deriving DecidableEq, Inhabited

/-- A row of the DataFrame returned by `get_split_markers`: the interpolated
point plus the `ends`/`begins` tags. -/
structure SplitMarker where
  latitude : ℚ
  longitude : ℚ
  elevation : ℚ
  time : ℚ
  hr : ℚ
  cadence : ℚ
  cumul_distance_2d : ℚ
  ends : ℤ
  begins : ℤ
deriving DecidableEq, Inhabited

/-- The bucket column named by `split_col` (only reached for `"km"` or
`"mile"`; the `ValueError` guard in `get_split_markers` fires first
otherwise). -/
def bucket_of (split_col : String) (p : SplitPoint) : ℤ :=
  if split_col = "km" then p.km else p.mile

/-- `split_len` for a split column: `1000` for `"km"`, `MILE` for `"mile"`. -/
def split_len_of (split_col : String) : ℚ :=
  if split_col = "km" then 1000 else MILE

/-- `df[df[split_col] == i - 1].iloc[-1]`. -/
def last_in_bucket (pts : List SplitPoint) (split_col : String) (b : ℤ) : Option SplitPoint :=
  (pts.filter (fun p => bucket_of split_col p = b)).getLast?

/-- `df[df[split_col] == i].iloc[0]`. -/
def first_in_bucket (pts : List SplitPoint) (split_col : String) (b : ℤ) : Option SplitPoint :=
  (pts.filter (fun p => bucket_of split_col p = b)).head?

/-- Error message for `p1 = df[df[split_col] == i - 1].iloc[-1]` on an empty
selection. -/
def iloc_last_err : String :=
  "IndexError: single positional indexer is out-of-bounds (iloc[-1], last point of bucket)"

/-- Error message for `p2 = df[df[split_col] == i].iloc[0]` on an empty
selection. -/
def iloc_first_err : String :=
  "IndexError: single positional indexer is out-of-bounds (iloc[0], first point of bucket)"

/-- Modelled from the spec: `intersect_points` lives in `pyft/geo_utils.py`,
which is not among the provided sources.  Per §4.4, it linearly interpolates
latitude, longitude, elevation, heart rate, cadence and time between `p1`
and `p2` using `portion`; the cumulative-distance column, whose interpolated
value §3 pins down, is interpolated the same way. -/
def intersect_points (p1 p2 : SplitPoint) (portion : ℚ) : SplitPoint :=
  { latitude := p1.latitude + portion * (p2.latitude - p1.latitude)
    longitude := p1.longitude + portion * (p2.longitude - p1.longitude)
    elevation := p1.elevation + portion * (p2.elevation - p1.elevation)
    time := p1.time + portion * (p2.time - p1.time)
    hr := p1.hr + portion * (p2.hr - p1.hr)
    cadence := p1.cadence + portion * (p2.cadence - p1.cadence)
    cumul_distance_2d := p1.cumul_distance_2d
      + portion * (p2.cumul_distance_2d - p1.cumul_distance_2d)
    km := p1.km
    mile := p1.mile }

/-- One iteration of the `for i in range(...)` loop of `get_split_markers`:
select `p1`/`p2`, compute `overrun`, `underrun`, `portion`, interpolate, and
tag with `ends = i - 1`, `begins = i`. -/
def marker_at (pts : List SplitPoint) (split_col : String) (split_len : ℚ) (i : ℤ) :
    Except String SplitMarker :=
  match last_in_bucket pts split_col (i - 1) with
  | none => .error iloc_last_err
  | some p1 =>
    match first_in_bucket pts split_col i with
    | none => .error iloc_first_err
    | some p2 =>
      let overrun := p2.cumul_distance_2d - split_len * i
      let underrun := split_len * i - p1.cumul_distance_2d
      let portion := underrun / (underrun + overrun)
      let m := intersect_points p1 p2 portion
      .ok { latitude := m.latitude, longitude := m.longitude, elevation := m.elevation
            time := m.time, hr := m.hr, cadence := m.cadence
            cumul_distance_2d := m.cumul_distance_2d
            ends := i - 1, begins := i }

/-- Left-to-right accumulation of the loop body; the first uncaught
`IndexError` aborts the whole call, exactly as in Python. -/
def markers_loop (pts : List SplitPoint) (split_col : String) (split_len : ℚ) :
    List ℤ → Except String (List SplitMarker)
  | [] => .ok []
  | i :: rest =>
    match marker_at pts split_col split_len i with
    | .error e => .error e
    | .ok m =>
      match markers_loop pts split_col split_len rest with
      | .error e => .error e
      | .ok ms => .ok (m :: ms)

/-- Consecutive integers `start, start+1, ...` (`n` of them). -/
def int_range_from (start : ℤ) : ℕ → List ℤ
  | 0 => []
  | n + 1 => start :: int_range_from (start + 1) n

/-- `range(int(min_split) + 1, int(max_split) + 1)` as a list of integers. -/
def split_boundaries (mn mx : ℤ) : List ℤ :=
  int_range_from (mn + 1) (mx - mn).toNat

/-- Embeds `Activity.get_split_markers` from `src/pyft/activity.py`.  Invalid
`split_col` raises `ValueError`; an empty frame makes `int(df[col].min())`
raise (`min()` of an empty column is `NaN`); otherwise the boundaries from
`min+1` to `max` are processed in order. -/
def get_split_markers (pts : List SplitPoint) (split_col : String) :
    Except String (List SplitMarker) :=
  if split_col = "km" ∨ split_col = "mile" then
    match (pts.map (bucket_of split_col)).min?, (pts.map (bucket_of split_col)).max? with
    | some mn, some mx => markers_loop pts split_col (split_len_of split_col) (split_boundaries mn mx)
    | _, _ => .error "ValueError: cannot convert float NaN to integer"
  else .error "ValueError: split_col must be km or mile"


/-! ## `src/pyft/serialize/parse.py` — `GPXParser.activity_type` -/

/-- `BaseParser.ACTIVITY_TYPES`. -/
def ACTIVITY_TYPES : List String := ["run", "walk", "hike"]

/-- `GPXParser.STRAVA_TYPES.get(track_type)` (Python `dict.get`, so a `None`
key simply misses). -/
def strava_types (track_type : Option String) : Option String :=
  match track_type with
  | some "4" => some "hike"
  | some "9" => some "run"
  | some "10" => some "walk"
  | _ => none

/-- `GarminMixin.GARMIN_TYPES.get(track_type)`. -/
def garmin_types (track_type : Option String) : Option String :=
  match track_type with
  | some "hiking" => some "hike"
  | some "running" => some "run"
  | some "walking" => some "walk"
  | _ => none

/-- Error raised by `self.gpx.creator.startswith(...)` when the GPX document
has no `creator` attribute (`gpxpy` leaves it `None`). -/
def creator_none_err : String :=
  "AttributeError: 'NoneType' object has no attribute 'startswith'"

/-- Python `str.startswith`, evaluated structurally on the character lists. -/
def starts_with (s pre : String) : Bool :=
  pre.data.isPrefixOf s.data

/-- The `elif` chain of `GPXParser.activity_type` after the declared track
type failed the `ACTIVITY_TYPES` test: dispatch on the `creator` string,
falling back to the initial value `'unknown'`. -/
def activity_type_from_creator (track_type creator : Option String) : Except String String :=
  match creator with
  | none => .error creator_none_err
  | some c =>
    if starts_with c "StravaGPX" then .ok ((strava_types track_type).getD "unknown")
    else if starts_with c "Garmin Connect" then .ok ((garmin_types track_type).getD "unknown")
    else .ok "unknown"

/-- Embeds `GPXParser.activity_type` from `src/pyft/serialize/parse.py`:
`track_type` is `self.gpx.tracks[0].type` and `creator` is
`self.gpx.creator`, both optional attributes of the parsed document. -/
def activity_type (track_type creator : Option String) : Except String String :=
  match track_type with
  | some t => if t ∈ ACTIVITY_TYPES then .ok t else activity_type_from_creator track_type creator
  | none => activity_type_from_creator none creator


/-! ## Theorems -/

/-- A non-empty list has a last element. -/
theorem getLast?_isSome_of_ne_nil {α : Type _} {l : List α} (h : l ≠ []) :
    ∃ a, l.getLast? = some a := by
  cases hl : l.getLast? with
  | none => exact absurd (List.getLast?_eq_none_iff.mp hl) h
  | some a => exact ⟨a, rfl⟩

/-- C2: the claim says `get_lap_durations` returns, for lap `i`, the duration
`start_time[i+1] - start_time[i]`, and for the final lap the last point time
minus its own start time.  On lap starts `[0, 10]` with last point time `25`
that is `[10, 15]`; the code computes
`start_times - start_times.shift(-1, fill_value=last_time)` and returns the
negated values `[-10, -15]`. -/
theorem lap_durations_negated_eval :
    get_lap_durations [0, 10] [5, 25] = .ok [-10, -15] ∧
      get_lap_durations [0, 10] [5, 25] ≠ .ok [10, 15] := by
  constructor
  · norm_num [get_lap_durations, List.range_succ]
  · norm_num [get_lap_durations, List.range_succ]

/-- C9 counterexample: out-of-order lap start times (`[10, 0]` is decreasing)
do not make `get_lap_durations` fail — it returns an ordinary result, so no
`SchemaError` (or any error) is raised. -/
theorem lap_order_no_error_counterexample :
    ¬ ((10 : ℚ) ≤ 0) ∧ get_lap_durations [10, 0] [5, 20] = .ok [10, -20] := by
  constructor
  · norm_num
  · norm_num [get_lap_durations, List.range_succ]

/-- C9 amended: the lap aggregation helpers perform no ordering validation at
all.  For every list of lap start times — ordered or not — and every
non-empty point series, `get_lap_durations` and `get_lap_distances` return a
normal result and never raise; no `SchemaError` exists in the code. -/
theorem lap_ops_never_schema_error :
    (∀ (laps points : List ℚ), points ≠ [] →
      ∃ ds, get_lap_durations laps points = .ok ds) ∧
    (∀ rows : List (ℤ × ℚ), rows ≠ [] →
      ∃ ds, get_lap_distances rows = .ok ds) := by
  constructor
  · intro laps points hne
    obtain ⟨a, ha⟩ := getLast?_isSome_of_ne_nil hne
    exact ⟨_, by rw [get_lap_durations, ha]⟩
  · intro rows hne
    obtain ⟨a, ha⟩ := getLast?_isSome_of_ne_nil hne
    exact ⟨_, by rw [get_lap_distances, ha]⟩

/-- Witness for `lap_ops_never_schema_error`: both parts applied to concrete
inputs, discharging the non-emptiness hypotheses. -/
theorem lap_ops_never_schema_error_witness :
    (∃ ds, get_lap_durations [0, 10] [5, 25] = .ok ds) ∧
    (∃ ds, get_lap_distances [(3, 100), (4, 200), (4, 250)] = .ok ds) :=
  ⟨lap_ops_never_schema_error.1 [0, 10] [5, 25] (by decide),
   lap_ops_never_schema_error.2 [(3, 100), (4, 200), (4, 250)] (by decide)⟩

/-- C1: evaluation of `infer_points_data` (`src/pyft/serialize/parse.py`) at
three points 100 m apart (per the distance function), times 0/10/20 s, with
`speed_measure_interval = 2`.  `km_pace` follows the claimed interval
formula and rows `i < N` get missing paces, but `mile_pace` divides by the
single-step `step_length_2d` (100 m) instead of the interval distance
(200 m): the code yields `MILE/100 * 20` where the claimed formula yields
`MILE/200 * 20`. -/
theorem mile_pace_formula_divergence :
    ((infer_points_data (fun _ _ => 100) 2 [⟨0, 0, 0⟩, ⟨0, 0, 10⟩, ⟨0, 0, 20⟩]).getD 2
        default).mile_pace = some ((MILE / 100) * 20) ∧
    ((infer_points_data (fun _ _ => 100) 2 [⟨0, 0, 0⟩, ⟨0, 0, 10⟩, ⟨0, 0, 20⟩]).getD 2
        default).cumul_distance_2d -
      ((infer_points_data (fun _ _ => 100) 2 [⟨0, 0, 0⟩, ⟨0, 0, 10⟩, ⟨0, 0, 20⟩]).getD 0
        default).cumul_distance_2d = 200 ∧
    (MILE / 100) * 20 ≠ (MILE / 200) * 20 ∧
    ((infer_points_data (fun _ _ => 100) 2 [⟨0, 0, 0⟩, ⟨0, 0, 10⟩, ⟨0, 0, 20⟩]).getD 2
        default).km_pace = some ((1000 / 200) * 20) ∧
    ((infer_points_data (fun _ _ => 100) 2 [⟨0, 0, 0⟩, ⟨0, 0, 10⟩, ⟨0, 0, 20⟩]).getD 1
        default).km_pace = none ∧
    ((infer_points_data (fun _ _ => 100) 2 [⟨0, 0, 0⟩, ⟨0, 0, 10⟩, ⟨0, 0, 20⟩]).getD 1
        default).mile_pace = none := by
  refine ⟨?_, ?_, ?_, ?_, ?_, ?_⟩ <;>
    norm_num [infer_points_data, List.range_succ, mile_pace, km_pace,
      cumul_distance_2d, step_length_2d, distance_2d, time_at, latlon, MILE]

/-- Every step length is nonnegative when the distance function is. -/
theorem step_length_2d_nonneg {d : ℚ × ℚ → ℚ × ℚ → ℚ} (hd : ∀ a b, 0 ≤ d a b)
    (pts : List TrackPoint) : ∀ i, 0 ≤ step_length_2d d pts i
  | 0 => le_refl 0
  | _ + 1 => hd _ _

/-- The cumulative distance column is monotone in the row index. -/
theorem cumul_distance_2d_mono {d : ℚ × ℚ → ℚ × ℚ → ℚ} (hd : ∀ a b, 0 ≤ d a b)
    (pts : List TrackPoint) {i j : ℕ} (hij : i ≤ j) :
    cumul_distance_2d d pts i ≤ cumul_distance_2d d pts j := by
  induction j, hij using Nat.le_induction with
  | base => exact le_refl _
  | succ j hij ih =>
    rw [cumul_distance_2d]
    have := step_length_2d_nonneg hd pts (j + 1)
    linarith

/-- Row `i` of the enriched frame, unfolded. -/
theorem infer_points_data_getD (d : ℚ × ℚ → ℚ × ℚ → ℚ) (N : ℕ) (pts : List TrackPoint)
    {i : ℕ} (h : i < pts.length) :
    (infer_points_data d N pts).getD i default =
      { latitude := (pts.getD i default).latitude
        longitude := (pts.getD i default).longitude
        time := time_at pts i
        step_length_2d := step_length_2d d pts i
        cumul_distance_2d := cumul_distance_2d d pts i
        km := ⌊cumul_distance_2d d pts i / 1000⌋
        mile := ⌊cumul_distance_2d d pts i / MILE⌋
        run_time := time_at pts i - time_at pts 0
        km_pace := km_pace d N pts i
        mile_pace := mile_pace d N pts i
        kmph := (km_pace d N pts i).map (fun p => 3600 / p)
        mph := ((km_pace d N pts i).map (fun p => 3600 / p)).map (fun s => s / (MILE / 1000)) } := by
  simp [infer_points_data, List.getD_eq_getElem?_getD, List.getElem?_map,
    List.getElem?_range, h]

/-- The enriched frame has one row per input point. -/
theorem infer_points_data_length (d : ℚ × ℚ → ℚ × ℚ → ℚ) (N : ℕ) (pts : List TrackPoint) :
    (infer_points_data d N pts).length = pts.length := by
  simp [infer_points_data]

/-- Partial sums of the step column are the cumulative column. -/
theorem sum_range_step (d : ℚ × ℚ → ℚ × ℚ → ℚ) (pts : List TrackPoint) :
    ∀ n : ℕ, ((List.range (n + 1)).map (step_length_2d d pts)).sum =
      cumul_distance_2d d pts n
  | 0 => by simp [List.range_succ, cumul_distance_2d]
  | n + 1 => by
    rw [List.range_succ, List.map_append, List.sum_append, sum_range_step d pts n]
    simp [cumul_distance_2d]

/-- C5: for every point sequence processed by `infer_points_data`
(`src/pyft/serialize/parse.py`) with a nonnegative distance function,
`cumul_distance_2d` is monotonically non-decreasing, the step column sums to
the final cumulative distance (exactly, in `ℚ`), the `km` and `mile` bucket
columns are the floors of the cumulative distance over 1000 m and
1609.344 m, and both bucket columns are monotonically non-decreasing. -/
theorem points_distance_invariants (d : ℚ × ℚ → ℚ × ℚ → ℚ) (N : ℕ)
    (pts : List TrackPoint) (hd : ∀ a b, 0 ≤ d a b) :
    (∀ i j, i ≤ j → j < (infer_points_data d N pts).length →
      ((infer_points_data d N pts).getD i default).cumul_distance_2d ≤
        ((infer_points_data d N pts).getD j default).cumul_distance_2d) ∧
    (pts ≠ [] →
      ((infer_points_data d N pts).map EnrichedPoint.step_length_2d).sum =
        ((infer_points_data d N pts).getD ((infer_points_data d N pts).length - 1)
          default).cumul_distance_2d) ∧
    (∀ i, i < (infer_points_data d N pts).length →
      ((infer_points_data d N pts).getD i default).km =
        ⌊((infer_points_data d N pts).getD i default).cumul_distance_2d / 1000⌋ ∧
      ((infer_points_data d N pts).getD i default).mile =
        ⌊((infer_points_data d N pts).getD i default).cumul_distance_2d / MILE⌋) ∧
    (∀ i j, i ≤ j → j < (infer_points_data d N pts).length →
      ((infer_points_data d N pts).getD i default).km ≤
        ((infer_points_data d N pts).getD j default).km ∧
      ((infer_points_data d N pts).getD i default).mile ≤
        ((infer_points_data d N pts).getD j default).mile) := by
  rw [infer_points_data_length]
  have hrow := fun {i : ℕ} (h : i < pts.length) => infer_points_data_getD d N pts h
  refine ⟨?_, ?_, ?_, ?_⟩
  · intro i j hij hj
    rw [hrow (lt_of_le_of_lt hij hj), hrow hj]
    exact cumul_distance_2d_mono hd pts hij
  · intro hne
    have hlen : 0 < pts.length := List.length_pos.mpr hne
    rw [hrow (by omega : pts.length - 1 < pts.length)]
    rw [infer_points_data, List.map_map]
    have hmap : (EnrichedPoint.step_length_2d ∘ fun i =>
        ({ latitude := (pts.getD i default).latitude
           longitude := (pts.getD i default).longitude
           time := time_at pts i
           step_length_2d := step_length_2d d pts i
           cumul_distance_2d := cumul_distance_2d d pts i
           km := ⌊cumul_distance_2d d pts i / 1000⌋
           mile := ⌊cumul_distance_2d d pts i / MILE⌋
           run_time := time_at pts i - time_at pts 0
           km_pace := km_pace d N pts i
           mile_pace := mile_pace d N pts i
           kmph := (km_pace d N pts i).map (fun p => 3600 / p)
           mph := ((km_pace d N pts i).map (fun p => 3600 / p)).map
             (fun s => s / (MILE / 1000)) } : EnrichedPoint)) =
        step_length_2d d pts := rfl
    rw [hmap]
    obtain ⟨m, hm⟩ : ∃ m, pts.length = m + 1 := ⟨pts.length - 1, by omega⟩
    rw [hm]
    simp only [Nat.add_sub_cancel]
    exact sum_range_step d pts m
  · intro i hi
    rw [hrow hi]
    exact ⟨rfl, rfl⟩
  · intro i j hij hj
    rw [hrow (lt_of_le_of_lt hij hj), hrow hj]
    have hc := cumul_distance_2d_mono hd pts hij
    constructor
    · apply Int.floor_le_floor
      gcongr
    · apply Int.floor_le_floor
      gcongr
      norm_num [MILE]

/-- Witness for `points_distance_invariants` at a concrete two-point series
and the constant distance function `1`. -/
theorem points_distance_invariants_witness :
    (∀ i j, i ≤ j → j < (infer_points_data (fun _ _ => 1) 1 [⟨0, 0, 0⟩, ⟨2, 3, 5⟩]).length →
      ((infer_points_data (fun _ _ => 1) 1 [⟨0, 0, 0⟩, ⟨2, 3, 5⟩]).getD i
          default).cumul_distance_2d ≤
        ((infer_points_data (fun _ _ => 1) 1 [⟨0, 0, 0⟩, ⟨2, 3, 5⟩]).getD j
          default).cumul_distance_2d) ∧
    (([⟨0, 0, 0⟩, ⟨2, 3, 5⟩] : List TrackPoint) ≠ [] →
      ((infer_points_data (fun _ _ => 1) 1 [⟨0, 0, 0⟩, ⟨2, 3, 5⟩]).map
          EnrichedPoint.step_length_2d).sum =
        ((infer_points_data (fun _ _ => 1) 1 [⟨0, 0, 0⟩, ⟨2, 3, 5⟩]).getD
          ((infer_points_data (fun _ _ => 1) 1 [⟨0, 0, 0⟩, ⟨2, 3, 5⟩]).length - 1)
          default).cumul_distance_2d) ∧
    (∀ i, i < (infer_points_data (fun _ _ => 1) 1 [⟨0, 0, 0⟩, ⟨2, 3, 5⟩]).length →
      ((infer_points_data (fun _ _ => 1) 1 [⟨0, 0, 0⟩, ⟨2, 3, 5⟩]).getD i default).km =
        ⌊((infer_points_data (fun _ _ => 1) 1 [⟨0, 0, 0⟩, ⟨2, 3, 5⟩]).getD i
            default).cumul_distance_2d / 1000⌋ ∧
      ((infer_points_data (fun _ _ => 1) 1 [⟨0, 0, 0⟩, ⟨2, 3, 5⟩]).getD i default).mile =
        ⌊((infer_points_data (fun _ _ => 1) 1 [⟨0, 0, 0⟩, ⟨2, 3, 5⟩]).getD i
            default).cumul_distance_2d / MILE⌋) ∧
    (∀ i j, i ≤ j → j < (infer_points_data (fun _ _ => 1) 1 [⟨0, 0, 0⟩, ⟨2, 3, 5⟩]).length →
      ((infer_points_data (fun _ _ => 1) 1 [⟨0, 0, 0⟩, ⟨2, 3, 5⟩]).getD i default).km ≤
        ((infer_points_data (fun _ _ => 1) 1 [⟨0, 0, 0⟩, ⟨2, 3, 5⟩]).getD j default).km ∧
      ((infer_points_data (fun _ _ => 1) 1 [⟨0, 0, 0⟩, ⟨2, 3, 5⟩]).getD i default).mile ≤
        ((infer_points_data (fun _ _ => 1) 1 [⟨0, 0, 0⟩, ⟨2, 3, 5⟩]).getD j default).mile) :=
  points_distance_invariants (fun _ _ => 1) 1 [⟨0, 0, 0⟩, ⟨2, 3, 5⟩]
    (fun _ _ => zero_le_one)

/-- C7: for every non-empty point sequence, the first row's `step_length_2d`
is `0` (the sentinel "no previous point" makes the distance `0`, not `NaN`)
and hence the first row's cumulative distance is `0`. -/
theorem first_step_distance_zero (d : ℚ × ℚ → ℚ × ℚ → ℚ) (N : ℕ)
    (pts : List TrackPoint) (hne : pts ≠ []) :
    ((infer_points_data d N pts).getD 0 default).step_length_2d = 0 ∧
    ((infer_points_data d N pts).getD 0 default).cumul_distance_2d = 0 := by
  have h0 : 0 < pts.length := List.length_pos.mpr hne
  rw [infer_points_data_getD d N pts h0]
  exact ⟨rfl, rfl⟩

/-- Witness for `first_step_distance_zero` at a concrete series. -/
theorem first_step_distance_zero_witness :
    ((infer_points_data (fun _ _ => 7) 1 [⟨1, 2, 3⟩, ⟨4, 5, 6⟩]).getD 0
        default).step_length_2d = 0 ∧
    ((infer_points_data (fun _ _ => 7) 1 [⟨1, 2, 3⟩, ⟨4, 5, 6⟩]).getD 0
        default).cumul_distance_2d = 0 :=
  first_step_distance_zero (fun _ _ => 7) 1 [⟨1, 2, 3⟩, ⟨4, 5, 6⟩] (by decide)

/-- Row `i` of the corrected pace column, unfolded. -/
theorem outlier_corrected_pace_getD (xs : List (Option ℚ)) {i : ℕ} (hi : i < xs.length) :
    (outlier_corrected_pace xs).getD i none =
      if keep_pace xs i then xs.getD i none else rolling_mean xs i := by
  simp [outlier_corrected_pace, List.getD_eq_getElem?_getD, List.getElem?_map,
    List.getElem?_range, hi]

/-- C4: in the outlier-correction pass of
`src/pyft/parse/parsers.py` (`infer_points_data`), a pace value whose
z-score against the whole column's mean/std satisfies `|z| >= 1` (phrased in
`ℚ` as `(x - mean)^2 >= variance`) is replaced by the average of its
immediate neighbours' *original* values, the overall column mean standing in
for the missing neighbour at either series boundary; a value with `|z| < 1`
is left unchanged.  The replacement only reads the original column `xs`, so
the pass is single-pass by construction. -/
theorem outlier_correction_spec (xs : List (Option ℚ)) (i : ℕ) (x m v : ℚ)
    (hi : i < xs.length) (hx : xs.getD i none = some x)
    (hm : nan_mean xs = some m) (hv : nan_var xs = some v) :
    (outlier_corrected_pace xs).length = xs.length ∧
    ((x - m) ^ 2 < v → (outlier_corrected_pace xs).getD i none = some x) ∧
    (v ≤ (x - m) ^ 2 →
      (outlier_corrected_pace xs).getD i none =
        match (if i = 0 then some m else xs.getD (i - 1) none),
              (if i + 1 < xs.length then xs.getD (i + 1) none else some m) with
        | some a, some b => some ((a + b) / 2)
        | _, _ => none) := by
  have hkeep : keep_pace xs i = decide ((x - m) ^ 2 < v) := by
    rw [keep_pace, hx, hm, hv]
  refine ⟨by simp [outlier_corrected_pace], ?_, ?_⟩
  · intro hlt
    rw [outlier_corrected_pace_getD xs hi, hkeep, if_pos (by simpa using hlt)]
    exact hx
  · intro hge
    rw [outlier_corrected_pace_getD xs hi, hkeep,
      if_neg (by simpa using not_lt.mpr hge)]
    rw [rolling_mean, hm]

/-- Witness for `outlier_correction_spec`: the column `[1, 1, 10]` has mean 4
and variance 27; the value 10 has `(10-4)^2 = 36 ≥ 27` and is replaced by
`(1 + 4)/2`, its left neighbour averaged with the boundary filler. -/
theorem outlier_correction_spec_witness :
    (outlier_corrected_pace [some 1, some 1, some 10]).length =
      ([some 1, some 1, some 10] : List (Option ℚ)).length ∧
    (((10 : ℚ) - 4) ^ 2 < 27 →
      (outlier_corrected_pace [some 1, some 1, some 10]).getD 2 none = some 10) ∧
    ((27 : ℚ) ≤ ((10 : ℚ) - 4) ^ 2 →
      (outlier_corrected_pace [some 1, some 1, some 10]).getD 2 none =
        match (if (2 : ℕ) = 0 then some (4 : ℚ) else [some 1, some 1, some 10].getD (2 - 1) none),
              (if 2 + 1 < ([some 1, some 1, some 10] : List (Option ℚ)).length then
                [some 1, some 1, some 10].getD (2 + 1) none else some (4 : ℚ)) with
        | some a, some b => some ((a + b) / 2)
        | _, _ => none) :=
  outlier_correction_spec [some 1, some 1, some 10] 2 10 4 27 (by decide) (by decide)
    (by norm_num [nan_mean, List.reduceOption, List.filterMap_cons])
    (by norm_num [nan_var, nan_mean, List.reduceOption, List.filterMap_cons])

/-- The imperative flush loop appends the patched buffer, in order, to the
accumulated points. -/
theorem flush_backfill_eq (data : FitData) : ∀ (bf acc : List FitData),
    flush_backfill data bf acc = acc ++ bf.map (fun t => fill_null t data)
  | [], acc => by simp [flush_backfill]
  | t :: rest, acc => by
    rw [flush_backfill, flush_backfill_eq data rest (acc ++ [fill_null t data])]
    simp

/-- C3: `FITParser._add_point` backfill behaviour.  A sample with both
coordinates present flushes the buffer: every buffered sample is patched
field-by-field (a `None` field takes the arriving sample's value, a present
field is never overwritten), the buffer is emitted in original arrival
order, the triggering sample is appended last, and the buffer is cleared.
A sample missing a coordinate is only buffered, and a stream ending in such
a sample contributes nothing to the parsed output. -/
theorem fit_backfill_merge_flush (s : FitState) (lat lon elev ts : Option ℚ)
    (hr cad : Option ℤ) (hlat : lat ≠ none) (hlon : lon ≠ none) :
    (add_point s lat lon elev ts hr cad).points_data =
      s.points_data
        ++ s.backfill.map
            (fun t => fill_null t (mk_fit_data (s.point + 1) lat lon elev ts hr cad))
        ++ [mk_fit_data (s.point + 1) lat lon elev ts hr cad] ∧
    (add_point s lat lon elev ts hr cad).backfill = [] ∧
    (∀ t d : FitData,
      (fill_null t d).point_no = t.point_no ∧
      (fill_null t d).latitude = (if t.latitude = none then d.latitude else t.latitude) ∧
      (fill_null t d).longitude = (if t.longitude = none then d.longitude else t.longitude) ∧
      (fill_null t d).elevation = (if t.elevation = none then d.elevation else t.elevation) ∧
      (fill_null t d).time = (if t.time = none then d.time else t.time) ∧
      (fill_null t d).hr = (if t.hr = none then d.hr else t.hr) ∧
      (fill_null t d).cadence = (if t.cadence = none then d.cadence else t.cadence)) ∧
    (∀ (lat2 lon2 elev2 ts2 : Option ℚ) (hr2 cad2 : Option ℤ),
      lat2 = none ∨ lon2 = none →
      (add_point s lat2 lon2 elev2 ts2 hr2 cad2).points_data = s.points_data ∧
      (add_point s lat2 lon2 elev2 ts2 hr2 cad2).backfill =
        s.backfill ++ [mk_fit_data (s.point + 1) lat2 lon2 elev2 ts2 hr2 cad2]) ∧
    (∀ (frames : List FitFrame) (f : FitFrame),
      f.position_lat = none ∨ f.position_long = none →
      parse_fit (frames ++ [f]) = parse_fit frames) := by
  obtain ⟨la, rfl⟩ := Option.ne_none_iff_exists'.mp hlat
  obtain ⟨lo, rfl⟩ := Option.ne_none_iff_exists'.mp hlon
  refine ⟨?_, ?_, ?_, ?_, ?_⟩
  · rw [add_point]
    simp only [Option.isNone_some, Bool.or_self, Bool.false_eq_true, if_false]
    rw [flush_backfill_eq]
  · rw [add_point]
    simp
  · intro t d
    obtain ⟨pn, tn, sn, tlat, tlon, telev, ttime, thr, tcad⟩ := t
    refine ⟨rfl, ?_, ?_, ?_, ?_, ?_, ?_⟩ <;>
      cases tlat <;> cases tlon <;> cases telev <;> cases ttime <;> cases thr <;>
        cases tcad <;> simp [fill_null]
  · intro lat2 lon2 elev2 ts2 hr2 cad2 hgeo
    rcases hgeo with h | h <;> subst h <;> simp [add_point]
  · intro frames f hgeo
    rw [parse_fit, parse_fit, List.foldl_append]
    by_cases hc : f.timestamp.isSome && f.altitude.isSome
    · simp only [List.foldl, process_frame, hc, if_true]
      rcases hgeo with h | h <;> simp [add_point, h]
    · simp [List.foldl, process_frame, hc]

/-- Witness for `fit_backfill_merge_flush`: three buffered coordinate-less
samples flushed by a sample carrying both coordinates. -/
theorem fit_backfill_merge_flush_witness :
    (add_point
        ⟨2, [],
          [⟨0, 0, 0, none, none, some 10, some 1, some 90, none⟩,
           ⟨1, 0, 0, none, none, some 11, some 2, none, some 75⟩,
           ⟨2, 0, 0, none, none, some 12, some 3, none, none⟩]⟩
        (some 36) (some 72) (some 13) (some 4) none (some 80)).points_data =
      ([] : List FitData)
        ++ [⟨0, 0, 0, none, none, some 10, some 1, some 90, none⟩,
            ⟨1, 0, 0, none, none, some 11, some 2, none, some 75⟩,
            ⟨2, 0, 0, none, none, some 12, some 3, none, none⟩].map
            (fun t => fill_null t
              (mk_fit_data (2 + 1) (some 36) (some 72) (some 13) (some 4) none (some 80)))
        ++ [mk_fit_data (2 + 1) (some 36) (some 72) (some 13) (some 4) none (some 80)] ∧
    (add_point
        ⟨2, [],
          [⟨0, 0, 0, none, none, some 10, some 1, some 90, none⟩,
           ⟨1, 0, 0, none, none, some 11, some 2, none, some 75⟩,
           ⟨2, 0, 0, none, none, some 12, some 3, none, none⟩]⟩
        (some 36) (some 72) (some 13) (some 4) none (some 80)).backfill = [] :=
  ⟨(fit_backfill_merge_flush
      ⟨2, [],
        [⟨0, 0, 0, none, none, some 10, some 1, some 90, none⟩,
         ⟨1, 0, 0, none, none, some 11, some 2, none, some 75⟩,
         ⟨2, 0, 0, none, none, some 12, some 3, none, none⟩]⟩
      (some 36) (some 72) (some 13) (some 4) none (some 80)
      (by decide) (by decide)).1,
   (fit_backfill_merge_flush
      ⟨2, [],
        [⟨0, 0, 0, none, none, some 10, some 1, some 90, none⟩,
         ⟨1, 0, 0, none, none, some 11, some 2, none, some 75⟩,
         ⟨2, 0, 0, none, none, some 12, some 3, none, none⟩]⟩
      (some 36) (some 72) (some 13) (some 4) none (some 80)
      (by decide) (by decide)).2.1⟩

/-- C8 counterexample: a GPX document whose track type is unrecognized and
whose `creator` attribute is absent does not yield `'unknown'`:
`self.gpx.creator.startswith(...)` raises `AttributeError` on `None`. -/
theorem activity_type_none_creator_counterexample :
    activity_type (some "cycling") none = .error creator_none_err ∧
    activity_type (some "cycling") none ≠ .ok "unknown" :=
  ⟨by decide, by decide⟩

/-- C8 amended: `GPXParser.activity_type` returns a declared track type that
is one of `{run, walk, hike}` as-is; otherwise, with a *present* creator
string, it maps the track type through the Strava table (creators starting
`StravaGPX`), or the Garmin table (creators starting `Garmin Connect`),
falling back to `'unknown'` for unmatched codes, and returns `'unknown'`
for unmatched creators; with an *absent* creator it raises
`AttributeError` instead of returning `'unknown'`. -/
theorem activity_type_resolution_amended :
    (∀ (s : String) (c : Option String), s ∈ ACTIVITY_TYPES →
      activity_type (some s) c = .ok s) ∧
    (∀ (t : Option String) (c : String), (∀ s, t = some s → s ∉ ACTIVITY_TYPES) →
      starts_with c "StravaGPX" = true →
      activity_type t (some c) = .ok ((strava_types t).getD "unknown")) ∧
    (∀ (t : Option String) (c : String), (∀ s, t = some s → s ∉ ACTIVITY_TYPES) →
      starts_with c "StravaGPX" = false → starts_with c "Garmin Connect" = true →
      activity_type t (some c) = .ok ((garmin_types t).getD "unknown")) ∧
    (∀ (t : Option String) (c : String), (∀ s, t = some s → s ∉ ACTIVITY_TYPES) →
      starts_with c "StravaGPX" = false → starts_with c "Garmin Connect" = false →
      activity_type t (some c) = .ok "unknown") ∧
    (∀ t : Option String, (∀ s, t = some s → s ∉ ACTIVITY_TYPES) →
      activity_type t none = .error creator_none_err) ∧
    (strava_types (some "4") = some "hike" ∧ strava_types (some "9") = some "run" ∧
      strava_types (some "10") = some "walk" ∧ garmin_types (some "hiking") = some "hike" ∧
      garmin_types (some "running") = some "run" ∧
      garmin_types (some "walking") = some "walk") := by
  refine ⟨?_, ?_, ?_, ?_, ?_, by decide⟩
  · intro s c hs
    simp [activity_type, hs]
  · intro t c ht hc
    cases t with
    | none => simp [activity_type, activity_type_from_creator, hc]
    | some s => simp [activity_type, ht s rfl, activity_type_from_creator, hc]
  · intro t c ht hc1 hc2
    cases t with
    | none => simp [activity_type, activity_type_from_creator, hc1, hc2]
    | some s => simp [activity_type, ht s rfl, activity_type_from_creator, hc1, hc2]
  · intro t c ht hc1 hc2
    cases t with
    | none => simp [activity_type, activity_type_from_creator, hc1, hc2]
    | some s => simp [activity_type, ht s rfl, activity_type_from_creator, hc1, hc2]
  · intro t ht
    cases t with
    | none => simp [activity_type, activity_type_from_creator]
    | some s => simp [activity_type, ht s rfl, activity_type_from_creator]

/-- Witness for `activity_type_resolution_amended` at concrete documents. -/
theorem activity_type_resolution_amended_witness :
    activity_type (some "run") (some "AnyApp") = .ok "run" ∧
    activity_type (some "4") (some "StravaGPX iPhone") =
      .ok ((strava_types (some "4")).getD "unknown") ∧
    activity_type (some "walking") (some "Garmin Connect") =
      .ok ((garmin_types (some "walking")).getD "unknown") ∧
    activity_type (some "cycling") (some "Some Other App") = .ok "unknown" ∧
    activity_type none none = .error creator_none_err :=
  ⟨activity_type_resolution_amended.1 "run" (some "AnyApp") (by decide),
   activity_type_resolution_amended.2.1 (some "4") "StravaGPX iPhone"
     (by intro s hs; cases hs; decide) (by decide),
   activity_type_resolution_amended.2.2.1 (some "walking") "Garmin Connect"
     (by intro s hs; cases hs; decide) (by decide) (by decide),
   activity_type_resolution_amended.2.2.2.1 (some "cycling") "Some Other App"
     (by intro s hs; cases hs; decide) (by decide) (by decide),
   activity_type_resolution_amended.2.2.2.2.1 none (by intro s hs; cases hs)⟩

/-- A successful loop only contains markers produced by `marker_at` at some
listed boundary. -/
theorem markers_loop_ok_mem {pts : List SplitPoint} {col : String} {L : ℚ} :
    ∀ {is : List ℤ} {ms : List SplitMarker},
      markers_loop pts col L is = .ok ms →
      ∀ m ∈ ms, ∃ i ∈ is, marker_at pts col L i = .ok m
  | [], ms, h => by
    rw [markers_loop] at h
    cases h
    intro m hm
    cases hm
  | i :: rest, ms, h => by
    rw [markers_loop] at h
    cases hmk : marker_at pts col L i with
    | error e => rw [hmk] at h; cases h
    | ok m0 =>
      rw [hmk] at h
      cases hrest : markers_loop pts col L rest with
      | error e => rw [hrest] at h; cases h
      | ok ms0 =>
        rw [hrest] at h
        cases h
        intro m hm
        rcases List.mem_cons.mp hm with rfl | hm0
        · exact ⟨i, List.mem_cons_self i rest, hmk⟩
        · obtain ⟨j, hj, hjok⟩ := markers_loop_ok_mem hrest m hm0
          exact ⟨j, List.mem_cons_of_mem i hj, hjok⟩

/-- A successful loop implies every listed boundary has a marker. -/
theorem markers_loop_ok_all {pts : List SplitPoint} {col : String} {L : ℚ} :
    ∀ {is : List ℤ} {ms : List SplitMarker},
      markers_loop pts col L is = .ok ms →
      ∀ i ∈ is, ∃ m, marker_at pts col L i = .ok m
  | [], ms, _h => by
    intro i hi
    cases hi
  | i :: rest, ms, h => by
    rw [markers_loop] at h
    cases hmk : marker_at pts col L i with
    | error e => rw [hmk] at h; cases h
    | ok m0 =>
      rw [hmk] at h
      cases hrest : markers_loop pts col L rest with
      | error e => rw [hrest] at h; cases h
      | ok ms0 =>
        intro j hj
        rcases List.mem_cons.mp hj with rfl | hj0
        · exact ⟨m0, hmk⟩
        · exact markers_loop_ok_all hrest j hj0

/-- If every listed boundary has a marker, the loop succeeds. -/
theorem markers_loop_all_ok {pts : List SplitPoint} {col : String} {L : ℚ} :
    ∀ {is : List ℤ},
      (∀ i ∈ is, ∃ m, marker_at pts col L i = .ok m) →
      ∃ ms, markers_loop pts col L is = .ok ms
  | [], _h => ⟨[], rfl⟩
  | i :: rest, h => by
    obtain ⟨m, hm⟩ := h i (List.mem_cons_self i rest)
    obtain ⟨ms, hms⟩ := markers_loop_all_ok (fun j hj => h j (List.mem_cons_of_mem i hj))
    exact ⟨m :: ms, by rw [markers_loop, hm, hms]⟩

/-- Characterization of a successful `marker_at`: the two selected points and
the marker's tag and interpolated cumulative distance. -/
theorem marker_at_ok {pts : List SplitPoint} {col : String} {L : ℚ} {i : ℤ}
    {m : SplitMarker} (h : marker_at pts col L i = .ok m) :
    ∃ p1 p2, last_in_bucket pts col (i - 1) = some p1 ∧
      first_in_bucket pts col i = some p2 ∧
      m.begins = i ∧ m.ends = i - 1 ∧
      m.cumul_distance_2d = p1.cumul_distance_2d +
        ((L * i - p1.cumul_distance_2d) /
            ((L * i - p1.cumul_distance_2d) + (p2.cumul_distance_2d - L * i)))
          * (p2.cumul_distance_2d - p1.cumul_distance_2d) := by
  rw [marker_at] at h
  cases hp1 : last_in_bucket pts col (i - 1) with
  | none => rw [hp1] at h; cases h
  | some p1 =>
    rw [hp1] at h
    cases hp2 : first_in_bucket pts col i with
    | none => rw [hp2] at h; cases h
    | some p2 =>
      rw [hp2] at h
      cases h
      refine ⟨p1, p2, rfl, rfl, rfl, rfl, ?_⟩
      simp [intersect_points]

/-- A point selected by `last_in_bucket` lies in the series and has the
requested bucket. -/
theorem last_in_bucket_mem {pts : List SplitPoint} {col : String} {b : ℤ}
    {p : SplitPoint} (h : last_in_bucket pts col b = some p) :
    p ∈ pts ∧ bucket_of col p = b := by
  have hm : p ∈ pts.filter (fun q => bucket_of col q = b) :=
    List.mem_of_mem_getLast? (Option.mem_def.mpr h)
  obtain ⟨hmem, hdec⟩ := List.mem_filter.mp hm
  exact ⟨hmem, of_decide_eq_true hdec⟩

/-- A point selected by `first_in_bucket` lies in the series and has the
requested bucket. -/
theorem first_in_bucket_mem {pts : List SplitPoint} {col : String} {b : ℤ}
    {p : SplitPoint} (h : first_in_bucket pts col b = some p) :
    p ∈ pts ∧ bucket_of col p = b := by
  have hm : p ∈ pts.filter (fun q => bucket_of col q = b) :=
    List.mem_of_mem_head? (Option.mem_def.mpr h)
  obtain ⟨hmem, hdec⟩ := List.mem_filter.mp hm
  exact ⟨hmem, of_decide_eq_true hdec⟩

/-- If some point has bucket `b`, `last_in_bucket` finds one. -/
theorem last_in_bucket_isSome {pts : List SplitPoint} {col : String} {b : ℤ}
    (h : ∃ p ∈ pts, bucket_of col p = b) :
    ∃ q, last_in_bucket pts col b = some q := by
  obtain ⟨p, hp, hb⟩ := h
  have hm : p ∈ pts.filter (fun q => bucket_of col q = b) :=
    List.mem_filter.mpr ⟨hp, by simp [hb]⟩
  exact getLast?_isSome_of_ne_nil (List.ne_nil_of_mem hm)

/-- If some point has bucket `b`, `first_in_bucket` finds one. -/
theorem first_in_bucket_isSome {pts : List SplitPoint} {col : String} {b : ℤ}
    (h : ∃ p ∈ pts, bucket_of col p = b) :
    ∃ q, first_in_bucket pts col b = some q := by
  obtain ⟨p, hp, hb⟩ := h
  have hm : p ∈ pts.filter (fun q => bucket_of col q = b) :=
    List.mem_filter.mpr ⟨hp, by simp [hb]⟩
  rw [first_in_bucket]
  cases hf : pts.filter (fun q => bucket_of col q = b) with
  | nil => rw [hf] at hm; cases hm
  | cons q rest => exact ⟨q, rfl⟩

/-- The bucket floor definition pins the cumulative distance between
consecutive whole-unit boundaries. -/
theorem bucket_bounds {L c : ℚ} (hL : 0 < L) {b : ℤ} (h : ⌊c / L⌋ = b) :
    (b : ℚ) * L ≤ c ∧ c < ((b : ℚ) + 1) * L := by
  rw [Int.floor_eq_iff] at h
  refine ⟨(le_div_iff₀ hL).mp h.1, ?_⟩
  have := (div_lt_iff₀ hL).mp h.2
  push_cast at this ⊢
  linarith

/-- Membership in `int_range_from`. -/
theorem mem_int_range_from {n : ℕ} : ∀ {s b : ℤ},
    b ∈ int_range_from s n ↔ s ≤ b ∧ b < s + n := by
  induction n with
  | zero => intro s b; simp [int_range_from]
  | succ n ih =>
    intro s b
    simp [int_range_from, ih]
    omega

/-- Membership in the boundary range `range(min+1, max+1)`. -/
theorem mem_split_boundaries {mn mx b : ℤ} :
    b ∈ split_boundaries mn mx ↔ mn < b ∧ b ≤ mx := by
  rw [split_boundaries, mem_int_range_from]
  omega

/-- `get_split_markers` on a valid column and non-empty frame is the
boundary loop. -/
theorem get_split_markers_eq_loop {pts : List SplitPoint} {col : String} {mn mx : ℤ}
    (hcol : col = "km" ∨ col = "mile")
    (hmn : (pts.map (bucket_of col)).min? = some mn)
    (hmx : (pts.map (bucket_of col)).max? = some mx) :
    get_split_markers pts col =
      markers_loop pts col (split_len_of col) (split_boundaries mn mx) := by
  rw [get_split_markers, if_pos hcol, hmn, hmx]

/-- The unit length of a valid split column is positive. -/
theorem split_len_of_pos {col : String} (hcol : col = "km" ∨ col = "mile") :
    0 < split_len_of col := by
  rcases hcol with h | h
  · rw [h, split_len_of, if_pos rfl]
    norm_num
  · rw [h, split_len_of, if_neg (by decide)]
    norm_num [MILE]

/-- C6: whenever the bucket column satisfies its floor-of-cumulative-distance
definition, every marker returned by `get_split_markers` comes from a pair
`p1`/`p2` for which the interpolation fraction
`portion = underrun / (underrun + overrun)` lies in `[0, 1]` and has a
nonzero denominator, and the marker's interpolated cumulative distance is
exactly `begins * unit_length`. -/
theorem split_marker_portion_bounds (pts : List SplitPoint) (col : String)
    (ms : List SplitMarker)
    (hcol : col = "km" ∨ col = "mile")
    (hfloor : ∀ p ∈ pts, bucket_of col p = ⌊p.cumul_distance_2d / split_len_of col⌋)
    (hok : get_split_markers pts col = .ok ms) :
    ∀ m ∈ ms, ∃ p1 p2,
      last_in_bucket pts col (m.begins - 1) = some p1 ∧
      first_in_bucket pts col m.begins = some p2 ∧
      (split_len_of col * m.begins - p1.cumul_distance_2d) +
        (p2.cumul_distance_2d - split_len_of col * m.begins) ≠ 0 ∧
      0 ≤ (split_len_of col * m.begins - p1.cumul_distance_2d) /
          ((split_len_of col * m.begins - p1.cumul_distance_2d) +
            (p2.cumul_distance_2d - split_len_of col * m.begins)) ∧
      (split_len_of col * m.begins - p1.cumul_distance_2d) /
          ((split_len_of col * m.begins - p1.cumul_distance_2d) +
            (p2.cumul_distance_2d - split_len_of col * m.begins)) ≤ 1 ∧
      m.cumul_distance_2d = m.begins * split_len_of col := by
  have hL : 0 < split_len_of col := split_len_of_pos hcol
  rw [get_split_markers, if_pos hcol] at hok
  cases hmn : (pts.map (bucket_of col)).min? with
  | none => rw [hmn] at hok; cases hok
  | some mn =>
    cases hmx : (pts.map (bucket_of col)).max? with
    | none => rw [hmn, hmx] at hok; cases hok
    | some mx =>
      rw [hmn, hmx] at hok
      intro m hm
      obtain ⟨i, _hi_mem, hiok⟩ := markers_loop_ok_mem hok m hm
      obtain ⟨p1, p2, hp1, hp2, hbeg, _hends, hcum⟩ := marker_at_ok hiok
      obtain ⟨hp1mem, hp1b⟩ := last_in_bucket_mem hp1
      obtain ⟨hp2mem, hp2b⟩ := first_in_bucket_mem hp2
      have h1 := bucket_bounds hL ((hfloor p1 hp1mem).symm.trans hp1b)
      have h2 := bucket_bounds hL ((hfloor p2 hp2mem).symm.trans hp2b)
      rw [hbeg]
      refine ⟨p1, p2, hp1, hp2, ?_⟩
      have hcast : ((i - 1 : ℤ) : ℚ) = (i : ℚ) - 1 := by push_cast; ring
      rw [hcast] at h1
      have hu : 0 < split_len_of col * (i : ℚ) - p1.cumul_distance_2d := by
        have := h1.2
        nlinarith
      have ho : 0 ≤ p2.cumul_distance_2d - split_len_of col * (i : ℚ) := by
        have := h2.1
        nlinarith
      have hden : 0 < (split_len_of col * (i : ℚ) - p1.cumul_distance_2d) +
          (p2.cumul_distance_2d - split_len_of col * (i : ℚ)) := by linarith
      refine ⟨ne_of_gt hden, div_nonneg hu.le hden.le, ?_, ?_⟩
      · rw [div_le_one hden]
        linarith
      · rw [hcum]
        have hsum : p2.cumul_distance_2d - p1.cumul_distance_2d =
            (split_len_of col * (i : ℚ) - p1.cumul_distance_2d) +
              (p2.cumul_distance_2d - split_len_of col * (i : ℚ)) := by ring
        rw [hsum, div_mul_cancel₀ _ (ne_of_gt hden)]
        ring

/-- Witness for `split_marker_portion_bounds`: a two-point series crossing
the first kilometre boundary midway, instantiated at the single returned
marker. -/
theorem split_marker_portion_bounds_witness :
    ∃ p1 p2,
      last_in_bucket [⟨1, 1, 1, 0, 1, 1, 500, 0, 0⟩, ⟨2, 2, 2, 10, 2, 2, 1500, 1, 0⟩]
        "km" ((1 : ℤ) - 1) = some p1 ∧
      first_in_bucket [⟨1, 1, 1, 0, 1, 1, 500, 0, 0⟩, ⟨2, 2, 2, 10, 2, 2, 1500, 1, 0⟩]
        "km" (1 : ℤ) = some p2 ∧
      (split_len_of "km" * ((1 : ℤ) : ℚ) - p1.cumul_distance_2d) +
        (p2.cumul_distance_2d - split_len_of "km" * ((1 : ℤ) : ℚ)) ≠ 0 ∧
      0 ≤ (split_len_of "km" * ((1 : ℤ) : ℚ) - p1.cumul_distance_2d) /
          ((split_len_of "km" * ((1 : ℤ) : ℚ) - p1.cumul_distance_2d) +
            (p2.cumul_distance_2d - split_len_of "km" * ((1 : ℤ) : ℚ))) ∧
      (split_len_of "km" * ((1 : ℤ) : ℚ) - p1.cumul_distance_2d) /
          ((split_len_of "km" * ((1 : ℤ) : ℚ) - p1.cumul_distance_2d) +
            (p2.cumul_distance_2d - split_len_of "km" * ((1 : ℤ) : ℚ))) ≤ 1 ∧
      (1000 : ℚ) = ((1 : ℤ) : ℚ) * split_len_of "km" :=
  split_marker_portion_bounds
    [⟨1, 1, 1, 0, 1, 1, 500, 0, 0⟩, ⟨2, 2, 2, 10, 2, 2, 1500, 1, 0⟩] "km"
    [⟨3/2, 3/2, 3/2, 5, 3/2, 3/2, 1000, 0, 1⟩]
    (Or.inl rfl)
    (by
      intro p hp
      fin_cases hp <;> norm_num [bucket_of, split_len_of])
    (by
      norm_num [get_split_markers, markers_loop, marker_at, split_boundaries,
        int_range_from, last_in_bucket, first_in_bucket, bucket_of, split_len_of,
        intersect_points, List.min?, List.max?, List.filter])
    ⟨3/2, 3/2, 3/2, 5, 3/2, 3/2, 1000, 0, 1⟩ (List.mem_singleton.mpr rfl)

/-- C10 amended: on a non-empty series (`mn`/`mx` the bucket column's
min/max), if some bucket strictly between `mn` and `mx` contains no points,
`get_split_markers` aborts with an uncaught `IndexError` — raised while
selecting the *first* point of the empty bucket (`p2 = ...iloc[0]`), since
boundary `b` is processed before boundary `b + 1`; and if every bucket
between `mn` and `mx` is non-empty, no error is raised and a marker list is
returned. -/
theorem split_markers_empty_bucket_amended (pts : List SplitPoint) (col : String)
    (mn mx : ℤ) (hcol : col = "km" ∨ col = "mile")
    (hmn : (pts.map (bucket_of col)).min? = some mn)
    (hmx : (pts.map (bucket_of col)).max? = some mx) :
    ((∃ b, mn < b ∧ b < mx ∧ ∀ p ∈ pts, bucket_of col p ≠ b) →
      ∃ e, get_split_markers pts col = .error e) ∧
    ((∀ b, mn ≤ b → b ≤ mx → ∃ p ∈ pts, bucket_of col p = b) →
      ∃ ms, get_split_markers pts col = .ok ms) := by
  rw [get_split_markers_eq_loop hcol hmn hmx]
  constructor
  · intro ⟨b, hb1, hb2, hempty⟩
    cases hres : markers_loop pts col (split_len_of col) (split_boundaries mn mx) with
    | error e => exact ⟨e, rfl⟩
    | ok ms =>
      exfalso
      have hin : b ∈ split_boundaries mn mx :=
        mem_split_boundaries.mpr ⟨hb1, le_of_lt hb2⟩
      obtain ⟨m, hmk⟩ := markers_loop_ok_all hres b hin
      obtain ⟨p1, p2, _hp1, hp2, _⟩ := marker_at_ok hmk
      obtain ⟨hp2mem, hp2b⟩ := first_in_bucket_mem hp2
      exact hempty p2 hp2mem hp2b
  · intro hall
    apply markers_loop_all_ok
    intro i hi
    obtain ⟨hi1, hi2⟩ := mem_split_boundaries.mp hi
    obtain ⟨q1, hq1⟩ := last_in_bucket_isSome (hall (i - 1) (by omega) (by omega))
    obtain ⟨q2, hq2⟩ := first_in_bucket_isSome (hall i (by omega) hi2)
    cases hres : marker_at pts col (split_len_of col) i with
    | ok m => exact ⟨m, rfl⟩
    | error e =>
      rw [marker_at, hq1, hq2] at hres
      cases hres

/-- C10 counterexample: a two-point series whose `km` buckets are 0 and 2
(the single step crosses two boundaries, so bucket 1 is empty between the
minimum 0 and maximum 2).  `get_split_markers` does fail with an uncaught
`IndexError`, but at the `iloc[0]` selection of the *first* point of bucket
1 (boundary `i = 1` selects `p2` from the empty bucket), not at the
`iloc[-1]` last-point selection named by the claim. -/
theorem split_markers_empty_bucket_counterexample :
    (∀ p ∈ ([⟨1, 1, 1, 0, 1, 1, 500, 0, 0⟩,
             ⟨2, 2, 2, 10, 2, 2, 2500, 2, 1⟩] : List SplitPoint),
      bucket_of "km" p ≠ 1) ∧
    get_split_markers
      [⟨1, 1, 1, 0, 1, 1, 500, 0, 0⟩, ⟨2, 2, 2, 10, 2, 2, 2500, 2, 1⟩] "km" =
      .error iloc_first_err ∧
    iloc_first_err ≠ iloc_last_err := by
  refine ⟨?_, ?_, by decide⟩
  · intro p hp
    fin_cases hp <;> decide
  · decide

/-- Witness for `split_markers_empty_bucket_amended`: the error branch at a
series with an empty intermediate bucket. -/
theorem split_markers_empty_bucket_amended_witness :
    ∃ e, get_split_markers
      [⟨1, 1, 1, 0, 1, 1, 500, 0, 0⟩, ⟨2, 2, 2, 10, 2, 2, 2500, 2, 1⟩] "km" =
      .error e :=
  (split_markers_empty_bucket_amended
      [⟨1, 1, 1, 0, 1, 1, 500, 0, 0⟩, ⟨2, 2, 2, 10, 2, 2, 2500, 2, 1⟩] "km" 0 2
      (Or.inl rfl) (by decide) (by decide)).1
    ⟨1, by decide, by decide, by decide⟩
